import Mathlib

/-!
Verification of the loot oracle in `src/loot.rs`: the seeded loot decision
engine (tier item selectors, enchantment sub-roller, and outcome combinator).
The seeded sequence generator (`rng::DotnetRng`), the `GameSettings` record and
the `format_icon` helper live outside the provided source; they are modelled
from the specification and the development is parameterized over them.
-/

namespace Loot

/-- Modelled from the spec: the host platform's random algorithm backing
`rng::DotnetRng`, which is not part of the provided source.  Per the spec the
generator is an opaque deterministic state initialized solely from the seed and
advancing by exactly one step per draw; `next_f64()` yields a float in
`[0, 1)` and `next_range(bound)` an integer in `[0, bound)`.  We model the
algorithm as the seed-determined draw sequences: `sampleOf seed n` is the float
value a generator seeded with `seed` yields when its `n`-th draw is a
`next_f64`, and `rdrawOf seed n bound` the integer value when its `n`-th draw
is a `next_range bound`.  Floating-point values are modelled as rationals. -/
structure HostRandom where
  sampleOf : Int → Nat → ℚ
  rdrawOf : Int → Nat → Int → Int

/-- Modelled from the spec: a generator instance is its seed-determined draw
sequences plus the position reached so far; every draw reads the current
position and advances it by one. -/
structure DotnetRng where
  sample : Nat → ℚ
  rdraw : Nat → Int → Int
  pos : Nat

/-- Modelled from the spec: `DotnetRng::new(seed)` against a host algorithm. -/
def DotnetRng.new (h : HostRandom) (seed : Int) : DotnetRng :=
  ⟨h.sampleOf seed, h.rdrawOf seed, 0⟩

/-- Modelled from the spec: `next()`, a full-range raw draw whose result is
unused by callers except to advance the state. -/
def DotnetRng.next (r : DotnetRng) : Int × DotnetRng :=
  (r.rdraw r.pos 2147483647, ⟨r.sample, r.rdraw, r.pos + 1⟩)

/-- Modelled from the spec: `next_f64()`, one float draw in `[0, 1)`. -/
def DotnetRng.next_f64 (r : DotnetRng) : ℚ × DotnetRng :=
  (r.sample r.pos, ⟨r.sample, r.rdraw, r.pos + 1⟩)

/-- Modelled from the spec: `next_range(bound)`, one draw in `[0, bound)`. -/
def DotnetRng.next_range (r : DotnetRng) (bound : Int) : Int × DotnetRng :=
  (r.rdraw r.pos bound, ⟨r.sample, r.rdraw, r.pos + 1⟩)

/-- A well-formed host algorithm: float draws lie in `[0, 1)` and range draws
lie in `[0, bound)`, as the spec's generator contract requires. -/
def HostRandom.WF (h : HostRandom) : Prop :=
  (∀ seed n, 0 ≤ h.sampleOf seed n ∧ h.sampleOf seed n < 1) ∧
  (∀ seed n bound, 0 < bound → 0 ≤ h.rdrawOf seed n bound ∧ h.rdrawOf seed n bound < bound)

/-- Modelled from the spec: the settings record (`GameSettings`) is not part of
the provided source; per the spec it carries the toggle for whether the
contested "golden coconut" item is eligible. -/
structure GameSettings where
  cracked_golden_coconut : Bool

/-- (Innate) enchantment type (`Enchant` in `loot.rs`). -/
inductive Enchant where
  | Defense
  | Weight
  | SlimeGatherer
  | SlimeSlayer
  | CritPower
  | CritChance
  | Attack
  | Speed
deriving DecidableEq, Repr

/-- List of (enchant, level), levels in display units (`Enchants` in
`loot.rs`). -/
abbrev Enchants := List (Enchant × Int)

/-- Possible contents of one chest (`ChestItem` in `loot.rs`). -/
inductive ChestItem where
  | CinderShards3
  | GoldenCoconut
  | TaroTuber
  | PineappleSeeds
  | ProtectionRing
  | SoulSapperRing
  | DwarfSword (e : Enchants)
  | DwarfHammer (e : Enchants)
  | DwarfDagger (e : Enchants)
  | CinderShards10
  | MermaidBoots
  | DragonscaleBoots
  | GoldenCoconuts
  | PhoenixRing
  | HotJavaRing
  | DragontoothCutlass (e : Enchants)
  | DragontoothClub (e : Enchants)
  | DragontoothShiv (e : Enchants)
  | DeluxePirateHat
  | OstrichEgg
deriving DecidableEq, Repr

/-- One row of the loot overview (`Goodie` in `loot.rs`). -/
inductive Goodie where
  | DragonTooth
  | CommonChest (c : ChestItem)
  | RareChest (c : ChestItem)
  | ChanceChest (minluck : ℚ) (common : ChestItem) (rare : ChestItem)
deriving DecidableEq, Repr

/-- Rust `i32::clamp(lo, hi)` for `lo ≤ hi`. -/
def iclamp (x lo hi : Int) : Int := max lo (min x hi)

/-- The `last_one` match at the end of `enchant_item`: one 5-way range draw
selects the major enchantment and computes its magnitude.  The `_` arm of the
Rust `match` is `unreachable!()`, modelled as `none`. -/
def major_roll (r : DotnetRng) (weapon_lvl weapon_speed : Int) :
    Option ((Enchant × Int) × DotnetRng) :=
  let p1 := r.next_range 5
  let sel := p1.1
  let r1 := p1.2
  if sel = 0 then
    let p2 := r1.next_range (weapon_lvl + 1)
    some ((Enchant.Attack, iclamp (Int.tdiv p2.1 2 + 1) 1 5), p2.2)
  else if sel = 1 then
    let p2 := r1.next_range weapon_lvl
    some ((Enchant.CritChance, iclamp (Int.tdiv p2.1 3) 1 3), p2.2)
  else if sel = 2 then
    let p2 := r1.next_range weapon_lvl
    some ((Enchant.Speed, iclamp p2.1 1 (max 1 (4 - weapon_speed))), p2.2)
  else if sel = 3 then
    some ((Enchant.SlimeSlayer, 0), r1)
  else if sel = 4 then
    let p2 := r1.next_range weapon_lvl
    some ((Enchant.CritPower, iclamp (Int.tdiv p2.1 3) 1 3 * 25), p2.2)
  else none

/-- `enchant_item` from `loot.rs`: apply innate enchantments to a weapon.
The first `0.125` test consumes its float draw before the `weapon_lvl <= 10`
test (Rust `&&` evaluates its left operand first); the three low-probability
branches short-circuit in order Defense, Weight, SlimeGatherer; the major
enchantment is always appended when the `0.5` gate passes. -/
def enchant_item (r : DotnetRng) (weapon_lvl weapon_speed : Int) :
    Option (Enchants × DotnetRng) :=
  let pg := r.next_f64
  if pg.1 < 1/2 then
    let p1 := pg.2.next_f64
    if p1.1 < 1/8 ∧ weapon_lvl ≤ 10 then
      let pd := p1.2.next_range (weapon_lvl + 1)
      let lvl := max (min (Int.tdiv pd.1 2 + 1) 2) 1
      (major_roll pd.2 weapon_lvl weapon_speed).map
        (fun mr => ((Enchant.Defense, lvl) :: [mr.1], mr.2))
    else
      let p2 := p1.2.next_f64
      if p2.1 < 1/8 then
        let pw := p2.2.next_range 5
        (major_roll pw.2 weapon_lvl weapon_speed).map
          (fun mr => ((Enchant.Weight, -(1 + pw.1)) :: [mr.1], mr.2))
      else
        let p3 := p2.2.next_f64
        if p3.1 < 1/8 then
          (major_roll p3.2 weapon_lvl weapon_speed).map
            (fun mr => ((Enchant.SlimeGatherer, 0) :: [mr.1], mr.2))
        else
          (major_roll p3.2 weapon_lvl weapon_speed).map
            (fun mr => ([mr.1], mr.2))
  else some ([], pg.2)

/-- The rejection-sampling `loop` in the tier selectors: draw an index of the
given width; when it equals the contested index and the toggle is off, redraw
(consuming one more value from the same generator).  The Rust loop is
unbounded; it is modelled with explicit fuel, `none` on exhaustion. -/
def reject_loop (settings : GameSettings) (bad width : Int) :
    Nat → DotnetRng → Option (Int × DotnetRng)
  | 0, _ => none
  | Nat.succ fuel, r =>
    let p := r.next_range width
    if p.1 = bad ∧ settings.cracked_golden_coconut = false then
      reject_loop settings bad width fuel p.2
    else
      some (p.1, p.2)

/-- `ChestItem::generate_common` from `loot.rs`: reseed from the seed, discard
one raw draw (the tier gate), pick an index of width 7 with rejection sampling
of index 1, and resolve the table (index 6 is the weapon family: one width-3
draw then the enchantment sub-roll).  `unreachable!()` arms are `none`. -/
def ChestItem.generate_common (h : HostRandom) (fuel : Nat)
    (seed : Int) (settings : GameSettings) : Option ChestItem :=
  let r0 := DotnetRng.new h seed
  let r1 := (r0.next).2
  match reject_loop settings 1 7 fuel r1 with
  | none => none
  | some (ind, r2) =>
    if ind = 0 then some ChestItem.CinderShards3
    else if ind = 1 then some ChestItem.GoldenCoconut
    else if ind = 2 then some ChestItem.TaroTuber
    else if ind = 3 then some ChestItem.PineappleSeeds
    else if ind = 4 then some ChestItem.ProtectionRing
    else if ind = 5 then some ChestItem.SoulSapperRing
    else if ind = 6 then
      let pw := r2.next_range 3
      if pw.1 = 0 then
        (enchant_item pw.2 13 4).map (fun pe => ChestItem.DwarfSword pe.1)
      else if pw.1 = 1 then
        (enchant_item pw.2 13 (-8)).map (fun pe => ChestItem.DwarfHammer pe.1)
      else if pw.1 = 2 then
        (enchant_item pw.2 11 3).map (fun pe => ChestItem.DwarfDagger pe.1)
      else none
    else none

/-- `ChestItem::generate_rare` from `loot.rs`: reseed from the seed, discard
one raw draw, pick an index of width 9 with rejection sampling of index 3, and
resolve the table (index 6 is the weapon family). -/
def ChestItem.generate_rare (h : HostRandom) (fuel : Nat)
    (seed : Int) (settings : GameSettings) : Option ChestItem :=
  let r0 := DotnetRng.new h seed
  let r1 := (r0.next).2
  match reject_loop settings 3 9 fuel r1 with
  | none => none
  | some (ind, r2) =>
    if ind = 0 then some ChestItem.CinderShards10
    else if ind = 1 then some ChestItem.MermaidBoots
    else if ind = 2 then some ChestItem.DragonscaleBoots
    else if ind = 3 then some ChestItem.GoldenCoconuts
    else if ind = 4 then some ChestItem.PhoenixRing
    else if ind = 5 then some ChestItem.HotJavaRing
    else if ind = 6 then
      let pw := r2.next_range 3
      if pw.1 = 0 then
        (enchant_item pw.2 13 0).map (fun pe => ChestItem.DragontoothCutlass pe.1)
      else if pw.1 = 1 then
        (enchant_item pw.2 14 (-8)).map (fun pe => ChestItem.DragontoothClub pe.1)
      else if pw.1 = 2 then
        (enchant_item pw.2 12 0).map (fun pe => ChestItem.DragontoothShiv pe.1)
      else none
    else if ind = 7 then some ChestItem.DeluxePirateHat
    else if ind = 8 then some ChestItem.OstrichEgg
    else none

/-- `Goodie::generate` from `loot.rs`: one generator from the seed, one float
draw with the level-dependent offset, then the luck-band comparison; each
taken branch reseeds an independent generator from the same seed through
`generate_common` / `generate_rare`. -/
def Goodie.generate (h : HostRandom) (fuel : Nat) (chest_seed : Int)
    (settings : GameSettings) (level : Int) (min_luck max_luck : ℚ) :
    Option Goodie :=
  let chest_rng := DotnetRng.new h chest_seed
  let pf := chest_rng.next_f64
  let chest_roll := pf.1 - (if level = 9 then (1 : ℚ)/2 else 1/10) + 1
  if chest_roll < min_luck then
    (ChestItem.generate_rare h fuel chest_seed settings).map Goodie.RareChest
  else if max_luck ≤ chest_roll then
    (ChestItem.generate_common h fuel chest_seed settings).map Goodie.CommonChest
  else
    match ChestItem.generate_common h fuel chest_seed settings,
          ChestItem.generate_rare h fuel chest_seed settings with
    | some c, some rr => some (Goodie.ChanceChest chest_roll c rr)
    | _, _ => none

/-- Well-formed draw sequences of a single generator instance: float draws in
`[0, 1)`, range draws in `[0, bound)`. -/
def StreamsWF (s : Nat → ℚ) (d : Nat → Int → Int) : Prop :=
  (∀ n, 0 ≤ s n ∧ s n < 1) ∧ (∀ n b, 0 < b → 0 ≤ d n b ∧ d n b < b)

/-- The roll value the outcome combinator computes: the first float draw of a
generator seeded from the seed, minus `0.5` when the level is `9` and `0.1`
otherwise, plus `1.0`. -/
def chestRoll (h : HostRandom) (seed level : Int) : ℚ :=
  h.sampleOf seed 0 - (if level = 9 then (1 : ℚ)/2 else 1/10) + 1

/-- Position-level specification of the rejection-sampling loop: starting at
draw position `p` with `fuel` tries left, the position of the first draw of
the given width that is not the contested index (or is, but the toggle is on).
Each rejected draw advances the position by exactly one. -/
def acceptPos (d : Nat → Int → Int) (toggle : Bool) (width bad : Int) :
    Nat → Nat → Option Nat
  | _, 0 => none
  | p, Nat.succ fuel =>
    if d p width = bad ∧ toggle = false then acceptPos d toggle width bad (p + 1) fuel
    else some p

/-- Position-level specification of the common-tier table resolution when the
accepted width-7 index draw sits at position `p`: the weapon-family slot (6)
takes one width-3 draw at `p + 1` and hands the enchantment sub-roller a
generator positioned at `p + 2`. -/
def commonAtPos (s : Nat → ℚ) (d : Nat → Int → Int) (p : Nat) : Option ChestItem :=
  let ind := d p 7
  if ind = 0 then some ChestItem.CinderShards3
  else if ind = 1 then some ChestItem.GoldenCoconut
  else if ind = 2 then some ChestItem.TaroTuber
  else if ind = 3 then some ChestItem.PineappleSeeds
  else if ind = 4 then some ChestItem.ProtectionRing
  else if ind = 5 then some ChestItem.SoulSapperRing
  else if ind = 6 then
    let w := d (p + 1) 3
    if w = 0 then (enchant_item ⟨s, d, p + 2⟩ 13 4).map (fun pe => ChestItem.DwarfSword pe.1)
    else if w = 1 then (enchant_item ⟨s, d, p + 2⟩ 13 (-8)).map (fun pe => ChestItem.DwarfHammer pe.1)
    else if w = 2 then (enchant_item ⟨s, d, p + 2⟩ 11 3).map (fun pe => ChestItem.DwarfDagger pe.1)
    else none
  else none

/-- Position-level specification of the rare-tier table resolution when the
accepted width-9 index draw sits at position `p`. -/
def rareAtPos (s : Nat → ℚ) (d : Nat → Int → Int) (p : Nat) : Option ChestItem :=
  let ind := d p 9
  if ind = 0 then some ChestItem.CinderShards10
  else if ind = 1 then some ChestItem.MermaidBoots
  else if ind = 2 then some ChestItem.DragonscaleBoots
  else if ind = 3 then some ChestItem.GoldenCoconuts
  else if ind = 4 then some ChestItem.PhoenixRing
  else if ind = 5 then some ChestItem.HotJavaRing
  else if ind = 6 then
    let w := d (p + 1) 3
    if w = 0 then (enchant_item ⟨s, d, p + 2⟩ 13 0).map (fun pe => ChestItem.DragontoothCutlass pe.1)
    else if w = 1 then (enchant_item ⟨s, d, p + 2⟩ 14 (-8)).map (fun pe => ChestItem.DragontoothClub pe.1)
    else if w = 2 then (enchant_item ⟨s, d, p + 2⟩ 12 0).map (fun pe => ChestItem.DragontoothShiv pe.1)
    else none
  else if ind = 7 then some ChestItem.DeluxePirateHat
  else if ind = 8 then some ChestItem.OstrichEgg
  else none

/-- The minor (conditional) enchantment entries produced when the sub-roller
enters its gate at position `p` on a weapon whose level exceeds the Defense
ceiling: the Weight test reads position `p + 2` (position `p + 1` is the
consumed Defense-gate draw) and the SlimeGatherer test position `p + 3`. -/
def minorsAt (s : Nat → ℚ) (d : Nat → Int → Int) (p : Nat) : Enchants :=
  if s (p + 2) < 1/8 then [(Enchant.Weight, -(1 + d (p + 3) 5))]
  else if s (p + 3) < 1/8 then [(Enchant.SlimeGatherer, 0)]
  else []

/-- The enchantment list attached to an item (empty for non-weapons). -/
def itemEnchants : ChestItem → Enchants
  | ChestItem.DwarfSword e => e
  | ChestItem.DwarfHammer e => e
  | ChestItem.DwarfDagger e => e
  | ChestItem.DragontoothCutlass e => e
  | ChestItem.DragontoothClub e => e
  | ChestItem.DragontoothShiv e => e
  | _ => []

/-- Concrete float stream for witnesses: all float draws are `0`. -/
def zeroQ : Nat → ℚ := fun _ => 0

/-- Concrete range-draw stream for witnesses: all range draws are `0`. -/
def zeroD : Nat → Int → Int := fun _ _ => 0

/-- Concrete host algorithm: every draw is `0`. -/
def host0 : HostRandom := ⟨fun _ _ => 0, fun _ _ _ => 0⟩

/-- Concrete host algorithm: float draws `1/10`, range draws `0`. -/
def hostTenth : HostRandom := ⟨fun _ _ => 1/10, fun _ _ _ => 0⟩

/-- Concrete host algorithm: float draws `0`, range draws `1`. -/
def hostIdx1 : HostRandom := ⟨fun _ _ => 0, fun _ _ _ => 1⟩

/-- Concrete host algorithm: float draws `0`, range draws `3`. -/
def hostIdx3 : HostRandom := ⟨fun _ _ => 0, fun _ _ _ => 3⟩

/-- Rust `{:+}` formatting of an `i32`: always-signed decimal. -/
def fmtSigned (n : Int) : String :=
  if 0 ≤ n then "+" ++ toString n else toString n

/-- The display name of an enchantment (`Display for Enchants` match arms). -/
def Enchant.displayName : Enchant → String
  | Enchant.Defense => "Defense"
  | Enchant.Weight => "Weight"
  | Enchant.SlimeGatherer => "Slime Gatherer"
  | Enchant.SlimeSlayer => "Slime Slayer"
  | Enchant.CritPower => "Crit. Power"
  | Enchant.CritChance => "Crit. Chance"
  | Enchant.Attack => "Attack"
  | Enchant.Speed => "Speed"

/-- `Display for Enchants`: empty string for an empty list, otherwise a
parenthesized comma-separated list, each entry with its signed level when the
level is non-zero. -/
def enchantsDisplay (e : Enchants) : String :=
  if e.isEmpty then ""
  else
    " (" ++ String.intercalate (", ")
      (e.map (fun p =>
        (if p.2 ≠ 0 then fmtSigned p.2 ++ " " else "") ++ p.1.displayName))
    ++ ")"

/-- `Display for ChestItem`. -/
def ChestItem.displayString : ChestItem → String
  | ChestItem.CinderShards3 => "Cinder Shard (3)"
  | ChestItem.GoldenCoconut => "Golden Coconut"
  | ChestItem.TaroTuber => "Taro Tuber (8)"
  | ChestItem.PineappleSeeds => "Pineapple Seeds (5)"
  | ChestItem.ProtectionRing => "Protection Ring"
  | ChestItem.SoulSapperRing => "Soul Sapper Ring"
  | ChestItem.DwarfSword e => "Dwarf Sword" ++ enchantsDisplay e
  | ChestItem.DwarfHammer e => "Dwarf Hammer" ++ enchantsDisplay e
  | ChestItem.DwarfDagger e => "Dwarf Dagger" ++ enchantsDisplay e
  | ChestItem.CinderShards10 => "Cinder Shard (10)"
  | ChestItem.MermaidBoots => "Mermaid Boots"
  | ChestItem.DragonscaleBoots => "Dragonscale Boots"
  | ChestItem.GoldenCoconuts => "Golden Coconut (3)"
  | ChestItem.PhoenixRing => "Phoenix Ring"
  | ChestItem.HotJavaRing => "Hot Java Ring"
  | ChestItem.DragontoothCutlass e => "Dragontooth Cutlass" ++ enchantsDisplay e
  | ChestItem.DragontoothClub e => "Dragontooth Club" ++ enchantsDisplay e
  | ChestItem.DragontoothShiv e => "Dragontooth Shiv" ++ enchantsDisplay e
  | ChestItem.DeluxePirateHat => "Deluxe Pirate Hat"
  | ChestItem.OstrichEgg => "Ostrich Egg"

/-- `ChestItem::get_icon`. -/
def ChestItem.get_icon : ChestItem → String
  | ChestItem.CinderShards3 => "cinder_shard"
  | ChestItem.GoldenCoconut => "golden_coconut"
  | ChestItem.TaroTuber => "taro_tuber"
  | ChestItem.PineappleSeeds => "pineapple_seeds"
  | ChestItem.ProtectionRing => "protection_ring"
  | ChestItem.SoulSapperRing => "soul_sapper_ring"
  | ChestItem.DwarfSword _ => "dwarf_sword"
  | ChestItem.DwarfHammer _ => "dwarf_hammer"
  | ChestItem.DwarfDagger _ => "dwarf_dagger"
  | ChestItem.CinderShards10 => "cinder_shard"
  | ChestItem.MermaidBoots => "mermaid_boots"
  | ChestItem.DragonscaleBoots => "dragonscale_boots"
  | ChestItem.GoldenCoconuts => "golden_coconut"
  | ChestItem.PhoenixRing => "phoenix_ring"
  | ChestItem.HotJavaRing => "hot_java_ring"
  | ChestItem.DragontoothCutlass _ => "dragontooth_cutlass"
  | ChestItem.DragontoothClub _ => "dragontooth_club"
  | ChestItem.DragontoothShiv _ => "dragontooth_shiv"
  | ChestItem.DeluxePirateHat => "deluxe_pirate_hat"
  | ChestItem.OstrichEgg => "ostrich_egg"

/-- `Goodie::to_html`, parameterized by the out-of-scope `format_icon`
collaborator (modelled from the spec: it maps an icon key to a display glyph).
The `ChanceChest` arm `panic!`s in the source, modelled as `none`. -/
def Goodie.to_html (format_icon : String → String) : Goodie → Option String
  | Goodie.DragonTooth => some (format_icon ("dragon_tooth") ++ " Dragon Tooth")
  | Goodie.CommonChest c =>
    some (format_icon ("common_chest") ++ " " ++ format_icon (c.get_icon)
      ++ " " ++ c.displayString)
  | Goodie.RareChest c =>
    some (format_icon ("rare_chest") ++ " " ++ format_icon (c.get_icon)
      ++ " " ++ c.displayString)
  | Goodie.ChanceChest _ _ _ => none

/-! ## Helper lemmas -/

theorem iclamp_bounds (x lo hi : Int) (hlh : lo ≤ hi) :
    lo ≤ iclamp x lo hi ∧ iclamp x lo hi ≤ hi := by
  unfold iclamp
  exact ⟨le_max_left lo (min x hi), max_le hlh (min_le_right x hi)⟩

theorem clamp13_times25 (x : Int) :
    iclamp x 1 3 * 25 = 25 ∨ iclamp x 1 3 * 25 = 50 ∨ iclamp x 1 3 * 25 = 75 := by
  unfold iclamp
  omega

theorem reject_loop_acceptPos (settings : GameSettings) (bad width : Int)
    (s : Nat → ℚ) (d : Nat → Int → Int) (fuel : Nat) :
    ∀ p : Nat,
      reject_loop settings bad width fuel ⟨s, d, p⟩ =
        (acceptPos d settings.cracked_golden_coconut width bad p fuel).map
          (fun q => (d q width, ⟨s, d, q + 1⟩)) := by
  induction fuel with
  | zero => intro p; rfl
  | succ fuel ih =>
    intro p
    simp only [reject_loop, acceptPos, DotnetRng.next_range]
    by_cases hc : d p width = bad ∧ settings.cracked_golden_coconut = false
    · rw [if_pos hc, if_pos hc]
      exact ih (p + 1)
    · rw [if_neg hc, if_neg hc]
      rfl

theorem acceptPos_not_contested (d : Nat → Int → Int) (toggle : Bool)
    (width bad : Int) (fuel : Nat) :
    ∀ p q : Nat, acceptPos d toggle width bad p fuel = some q →
      ¬ (d q width = bad ∧ toggle = false) := by
  induction fuel with
  | zero => intro p q hq; simp [acceptPos] at hq
  | succ fuel ih =>
    intro p q hq
    simp only [acceptPos] at hq
    by_cases hc : d p width = bad ∧ toggle = false
    · rw [if_pos hc] at hq
      exact ih (p + 1) q hq
    · rw [if_neg hc] at hq
      have hpq : p = q := Option.some.inj hq
      rw [← hpq]
      exact hc

theorem generate_common_posSpec (h : HostRandom) (fuel : Nat) (seed : Int)
    (settings : GameSettings) :
    ChestItem.generate_common h fuel seed settings =
      (acceptPos (h.rdrawOf seed) settings.cracked_golden_coconut 7 1 1 fuel).bind
        (commonAtPos (h.sampleOf seed) (h.rdrawOf seed)) := by
  simp only [ChestItem.generate_common, DotnetRng.new, DotnetRng.next, Nat.zero_add]
  rw [reject_loop_acceptPos]
  cases acceptPos (h.rdrawOf seed) settings.cracked_golden_coconut 7 1 1 fuel with
  | none => rfl
  | some q => rfl

theorem generate_rare_posSpec (h : HostRandom) (fuel : Nat) (seed : Int)
    (settings : GameSettings) :
    ChestItem.generate_rare h fuel seed settings =
      (acceptPos (h.rdrawOf seed) settings.cracked_golden_coconut 9 3 1 fuel).bind
        (rareAtPos (h.sampleOf seed) (h.rdrawOf seed)) := by
  simp only [ChestItem.generate_rare, DotnetRng.new, DotnetRng.next, Nat.zero_add]
  rw [reject_loop_acceptPos]
  cases acceptPos (h.rdrawOf seed) settings.cracked_golden_coconut 9 3 1 fuel with
  | none => rfl
  | some q => rfl

theorem major_roll_spec (r : DotnetRng) (lvl speed : Int)
    (mk : Enchant) (mv : Int) (r' : DotnetRng)
    (hm : major_roll r lvl speed = some ((mk, mv), r')) :
    (mk = Enchant.Attack ∨ mk = Enchant.CritChance ∨ mk = Enchant.Speed ∨
     mk = Enchant.SlimeSlayer ∨ mk = Enchant.CritPower) ∧
    (mk = Enchant.CritChance → 1 ≤ mv ∧ mv ≤ 3) ∧
    (mk = Enchant.CritPower → mv = 25 ∨ mv = 50 ∨ mv = 75) ∧
    (mk = Enchant.Speed → 1 ≤ mv ∧ mv ≤ max 1 (4 - speed)) := by
  simp only [major_roll, DotnetRng.next_range] at hm
  split_ifs at hm <;>
    simp at hm <;>
    obtain ⟨⟨hk, hv⟩, _⟩ := hm <;>
    subst hk <;> subst hv
  · simp
  · exact ⟨by simp, fun _ => iclamp_bounds _ 1 3 (by norm_num), by simp, by simp⟩
  · exact ⟨by simp, by simp, by simp,
      fun _ => iclamp_bounds _ 1 (max 1 (4 - speed)) (le_max_left 1 (4 - speed))⟩
  · simp
  · exact ⟨by simp, by simp, fun _ => clamp13_times25 _, by simp⟩

theorem enchant_no_defense (r : DotnetRng) (lvl speed : Int) (hlvl : 10 < lvl)
    (e : Enchants) (r' : DotnetRng)
    (hc : enchant_item r lvl speed = some (e, r')) :
    ∀ v : Int, (Enchant.Defense, v) ∉ e := by
  intro v
  simp only [enchant_item, DotnetRng.next_f64, DotnetRng.next_range] at hc
  split_ifs at hc with hg h1 h2 h3
  · exact absurd h1.2 (by omega)
  · obtain ⟨⟨⟨mk, mv⟩, rr⟩, hm, he⟩ := Option.map_eq_some'.mp hc
    injection he with he1 _
    subst he1
    rcases (major_roll_spec _ _ _ _ _ _ hm).1 with hk | hk | hk | hk | hk <;>
      subst hk <;> simp [Prod.ext_iff]
  · obtain ⟨⟨⟨mk, mv⟩, rr⟩, hm, he⟩ := Option.map_eq_some'.mp hc
    injection he with he1 _
    subst he1
    rcases (major_roll_spec _ _ _ _ _ _ hm).1 with hk | hk | hk | hk | hk <;>
      subst hk <;> simp [Prod.ext_iff]
  · obtain ⟨⟨⟨mk, mv⟩, rr⟩, hm, he⟩ := Option.map_eq_some'.mp hc
    injection he with he1 _
    subst he1
    rcases (major_roll_spec _ _ _ _ _ _ hm).1 with hk | hk | hk | hk | hk <;>
      subst hk <;> simp [Prod.ext_iff]
  · injection hc with hc1
    injection hc1 with he1 _
    subst he1
    simp

theorem generate_eq_cases (h : HostRandom) (fuel : Nat) (seed : Int)
    (settings : GameSettings) (level : Int) (min_luck max_luck : ℚ) :
    Goodie.generate h fuel seed settings level min_luck max_luck =
      if chestRoll h seed level < min_luck then
        (ChestItem.generate_rare h fuel seed settings).map Goodie.RareChest
      else if max_luck ≤ chestRoll h seed level then
        (ChestItem.generate_common h fuel seed settings).map Goodie.CommonChest
      else
        match ChestItem.generate_common h fuel seed settings,
              ChestItem.generate_rare h fuel seed settings with
        | some c, some rr => some (Goodie.ChanceChest (chestRoll h seed level) c rr)
        | _, _ => none := rfl

/-! ## Claim theorems -/

/-- C6: every enchantment list produced by `enchant_item` has length 0, 1 or
2; it is empty exactly when the initial `0.5`-gate float draw fails; its last
entry (when present) is always a major enchantment from
{Attack, CritChance, Speed, SlimeSlayer, CritPower}; and a length-2 list has a
minor first entry from {Defense, Weight, SlimeGatherer} followed by the major
enchantment. -/
theorem enchant_list_shape (r : DotnetRng) (lvl speed : Int)
    (e : Enchants) (r' : DotnetRng)
    (hc : enchant_item r lvl speed = some (e, r')) :
    (e.length = 0 ∨ e.length = 1 ∨ e.length = 2) ∧
    (e = [] ↔ ¬ ((r.next_f64).1 < 1/2)) ∧
    (∀ mk mv, e.getLast? = some (mk, mv) →
      mk = Enchant.Attack ∨ mk = Enchant.CritChance ∨ mk = Enchant.Speed ∨
      mk = Enchant.SlimeSlayer ∨ mk = Enchant.CritPower) ∧
    (∀ ak av mk mv, e = [(ak, av), (mk, mv)] →
      (ak = Enchant.Defense ∨ ak = Enchant.Weight ∨ ak = Enchant.SlimeGatherer) ∧
      (mk = Enchant.Attack ∨ mk = Enchant.CritChance ∨ mk = Enchant.Speed ∨
       mk = Enchant.SlimeSlayer ∨ mk = Enchant.CritPower)) := by
  simp only [DotnetRng.next_f64]
  simp only [enchant_item, DotnetRng.next_f64, DotnetRng.next_range] at hc
  split_ifs at hc with hg h1 h2 h3
  · obtain ⟨⟨⟨mk0, mv0⟩, rr⟩, hm, he⟩ := Option.map_eq_some'.mp hc
    injection he with he1 _
    subst he1
    have hk := (major_roll_spec _ _ _ _ _ _ hm).1
    refine ⟨by simp, by simpa using hg, ?_, ?_⟩
    · intro mk mv hlast
      simp at hlast
      obtain ⟨hk1, _⟩ := hlast
      subst hk1
      exact hk
    · intro ak av mk mv hab
      simp at hab
      obtain ⟨⟨ha1, _⟩, hm1, _⟩ := hab
      subst ha1
      subst hm1
      exact ⟨by simp, hk⟩
  · obtain ⟨⟨⟨mk0, mv0⟩, rr⟩, hm, he⟩ := Option.map_eq_some'.mp hc
    injection he with he1 _
    subst he1
    have hk := (major_roll_spec _ _ _ _ _ _ hm).1
    refine ⟨by simp, by simpa using hg, ?_, ?_⟩
    · intro mk mv hlast
      simp at hlast
      obtain ⟨hk1, _⟩ := hlast
      subst hk1
      exact hk
    · intro ak av mk mv hab
      simp at hab
      obtain ⟨⟨ha1, _⟩, hm1, _⟩ := hab
      subst ha1
      subst hm1
      exact ⟨by simp, hk⟩
  · obtain ⟨⟨⟨mk0, mv0⟩, rr⟩, hm, he⟩ := Option.map_eq_some'.mp hc
    injection he with he1 _
    subst he1
    have hk := (major_roll_spec _ _ _ _ _ _ hm).1
    refine ⟨by simp, by simpa using hg, ?_, ?_⟩
    · intro mk mv hlast
      simp at hlast
      obtain ⟨hk1, _⟩ := hlast
      subst hk1
      exact hk
    · intro ak av mk mv hab
      simp at hab
      obtain ⟨⟨ha1, _⟩, hm1, _⟩ := hab
      subst ha1
      subst hm1
      exact ⟨by simp, hk⟩
  · obtain ⟨⟨⟨mk0, mv0⟩, rr⟩, hm, he⟩ := Option.map_eq_some'.mp hc
    injection he with he1 _
    subst he1
    have hk := (major_roll_spec _ _ _ _ _ _ hm).1
    refine ⟨by simp, by simpa using hg, ?_, ?_⟩
    · intro mk mv hlast
      simp at hlast
      obtain ⟨hk1, _⟩ := hlast
      subst hk1
      exact hk
    · intro ak av mk mv hab
      simp at hab
  · injection hc with hc1
    injection hc1 with he1 _
    subst he1
    refine ⟨by simp, by simpa using hg, ?_, ?_⟩
    · intro mk mv hlast
      simp at hlast
    · intro ak av mk mv hab
      simp at hab

/-- Witness for C6 at a concrete input (the length-2 clause). -/
theorem enchant_list_shape_inst :
    (Enchant.Defense = Enchant.Defense ∨ Enchant.Defense = Enchant.Weight ∨
     Enchant.Defense = Enchant.SlimeGatherer) ∧
    (Enchant.Attack = Enchant.Attack ∨ Enchant.Attack = Enchant.CritChance ∨
     Enchant.Attack = Enchant.Speed ∨ Enchant.Attack = Enchant.SlimeSlayer ∨
     Enchant.Attack = Enchant.CritPower) :=
  (enchant_list_shape ⟨zeroQ, zeroD, 0⟩ 10 0
      [(Enchant.Defense, 1), (Enchant.Attack, 1)] ⟨zeroQ, zeroD, 5⟩
      (by norm_num [enchant_item, major_roll, DotnetRng.next_f64, DotnetRng.next_range,
        zeroQ, zeroD, iclamp])).2.2.2
    Enchant.Defense 1 Enchant.Attack 1 rfl

/-- C7: for every generator with well-formed draw sequences and every weapon
parameterization, enchantment magnitudes satisfy the display-unit clamps:
Defense in [1,2], Weight in [-5,-1], CritChance in [1,3], CritPower in
{25,50,75}, and Speed in [1, max 1 (4 - nominal_speed)]. -/
theorem enchant_magnitude_clamps (r : DotnetRng) (lvl speed : Int)
    (e : Enchants) (r' : DotnetRng)
    (hwf : StreamsWF r.sample r.rdraw)
    (hc : enchant_item r lvl speed = some (e, r')) :
    ∀ em ∈ e,
      (em.1 = Enchant.Defense → 1 ≤ em.2 ∧ em.2 ≤ 2) ∧
      (em.1 = Enchant.Weight → -5 ≤ em.2 ∧ em.2 ≤ -1) ∧
      (em.1 = Enchant.CritChance → 1 ≤ em.2 ∧ em.2 ≤ 3) ∧
      (em.1 = Enchant.CritPower → em.2 = 25 ∨ em.2 = 50 ∨ em.2 = 75) ∧
      (em.1 = Enchant.Speed → 1 ≤ em.2 ∧ em.2 ≤ max 1 (4 - speed)) := by
  intro em hmem
  simp only [enchant_item, DotnetRng.next_f64, DotnetRng.next_range] at hc
  split_ifs at hc with hg h1 h2 h3
  · obtain ⟨⟨⟨mk0, mv0⟩, rr⟩, hm, he⟩ := Option.map_eq_some'.mp hc
    injection he with he1 _
    subst he1
    have hs := major_roll_spec _ _ _ _ _ _ hm
    rcases List.mem_cons.mp hmem with hx | hx
    · subst hx
      refine ⟨fun _ => ?_, by simp, by simp, by simp, by simp⟩
      exact ⟨le_max_right _ _, max_le (min_le_right _ _) (by norm_num)⟩
    · rw [List.mem_singleton] at hx
      subst hx
      rcases hs.1 with hk | hk | hk | hk | hk <;> subst hk
      · exact ⟨by simp, by simp, by simp, by simp, by simp⟩
      · exact ⟨by simp, by simp, fun _ => hs.2.1 rfl, by simp, by simp⟩
      · exact ⟨by simp, by simp, by simp, by simp, fun _ => hs.2.2.2 rfl⟩
      · exact ⟨by simp, by simp, by simp, by simp, by simp⟩
      · exact ⟨by simp, by simp, by simp, fun _ => hs.2.2.1 rfl, by simp⟩
  · obtain ⟨⟨⟨mk0, mv0⟩, rr⟩, hm, he⟩ := Option.map_eq_some'.mp hc
    injection he with he1 _
    subst he1
    have hs := major_roll_spec _ _ _ _ _ _ hm
    rcases List.mem_cons.mp hmem with hx | hx
    · subst hx
      refine ⟨by simp, fun _ => ?_, by simp, by simp, by simp⟩
      have hd := (hwf.2 (r.pos + 1 + 1 + 1) 5 (by norm_num)).1
      have hd2 := (hwf.2 (r.pos + 1 + 1 + 1) 5 (by norm_num)).2
      constructor <;> simp only [] <;> omega
    · rw [List.mem_singleton] at hx
      subst hx
      rcases hs.1 with hk | hk | hk | hk | hk <;> subst hk
      · exact ⟨by simp, by simp, by simp, by simp, by simp⟩
      · exact ⟨by simp, by simp, fun _ => hs.2.1 rfl, by simp, by simp⟩
      · exact ⟨by simp, by simp, by simp, by simp, fun _ => hs.2.2.2 rfl⟩
      · exact ⟨by simp, by simp, by simp, by simp, by simp⟩
      · exact ⟨by simp, by simp, by simp, fun _ => hs.2.2.1 rfl, by simp⟩
  · obtain ⟨⟨⟨mk0, mv0⟩, rr⟩, hm, he⟩ := Option.map_eq_some'.mp hc
    injection he with he1 _
    subst he1
    have hs := major_roll_spec _ _ _ _ _ _ hm
    rcases List.mem_cons.mp hmem with hx | hx
    · subst hx
      exact ⟨by simp, by simp, by simp, by simp, by simp⟩
    · rw [List.mem_singleton] at hx
      subst hx
      rcases hs.1 with hk | hk | hk | hk | hk <;> subst hk
      · exact ⟨by simp, by simp, by simp, by simp, by simp⟩
      · exact ⟨by simp, by simp, fun _ => hs.2.1 rfl, by simp, by simp⟩
      · exact ⟨by simp, by simp, by simp, by simp, fun _ => hs.2.2.2 rfl⟩
      · exact ⟨by simp, by simp, by simp, by simp, by simp⟩
      · exact ⟨by simp, by simp, by simp, fun _ => hs.2.2.1 rfl, by simp⟩
  · obtain ⟨⟨⟨mk0, mv0⟩, rr⟩, hm, he⟩ := Option.map_eq_some'.mp hc
    injection he with he1 _
    subst he1
    have hs := major_roll_spec _ _ _ _ _ _ hm
    rw [List.mem_singleton] at hmem
    subst hmem
    rcases hs.1 with hk | hk | hk | hk | hk <;> subst hk
    · exact ⟨by simp, by simp, by simp, by simp, by simp⟩
    · exact ⟨by simp, by simp, fun _ => hs.2.1 rfl, by simp, by simp⟩
    · exact ⟨by simp, by simp, by simp, by simp, fun _ => hs.2.2.2 rfl⟩
    · exact ⟨by simp, by simp, by simp, by simp, by simp⟩
    · exact ⟨by simp, by simp, by simp, fun _ => hs.2.2.1 rfl, by simp⟩
  · injection hc with hc1
    injection hc1 with he1 _
    subst he1
    simp at hmem

/-- Witness for C7 at a concrete input (the produced Defense entry). -/
theorem enchant_magnitude_clamps_inst :
    ((Enchant.Defense, (1 : Int)).1 = Enchant.Defense →
      1 ≤ (Enchant.Defense, (1 : Int)).2 ∧ (Enchant.Defense, (1 : Int)).2 ≤ 2) ∧
    ((Enchant.Defense, (1 : Int)).1 = Enchant.Weight →
      -5 ≤ (Enchant.Defense, (1 : Int)).2 ∧ (Enchant.Defense, (1 : Int)).2 ≤ -1) ∧
    ((Enchant.Defense, (1 : Int)).1 = Enchant.CritChance →
      1 ≤ (Enchant.Defense, (1 : Int)).2 ∧ (Enchant.Defense, (1 : Int)).2 ≤ 3) ∧
    ((Enchant.Defense, (1 : Int)).1 = Enchant.CritPower →
      (Enchant.Defense, (1 : Int)).2 = 25 ∨ (Enchant.Defense, (1 : Int)).2 = 50 ∨
      (Enchant.Defense, (1 : Int)).2 = 75) ∧
    ((Enchant.Defense, (1 : Int)).1 = Enchant.Speed →
      1 ≤ (Enchant.Defense, (1 : Int)).2 ∧
      (Enchant.Defense, (1 : Int)).2 ≤ max 1 (4 - 0)) :=
  enchant_magnitude_clamps ⟨zeroQ, zeroD, 0⟩ 10 0
    [(Enchant.Defense, 1), (Enchant.Attack, 1)] ⟨zeroQ, zeroD, 5⟩
    ⟨fun _ => by norm_num [zeroQ], fun _ b hb => by norm_num [zeroD]; omega⟩
    (by norm_num [enchant_item, major_roll, DotnetRng.next_f64, DotnetRng.next_range,
      zeroQ, zeroD, iclamp])
    (Enchant.Defense, 1) (by simp)

set_option maxHeartbeats 1600000 in
/-- C9: no chest item produced by the tier selectors ever carries a Defense
enchantment (every weapon in both tables has nominal level above the Defense
ceiling 10), yet the `0.125` float draw guarding the Defense branch is still
consumed: for a weapon level above 10, once the gate passes, the minor tests
read positions `p + 2` and `p + 3` and the major roll starts at `p + 4`,
exactly as if the Defense draw at `p + 1` had been spent. -/
theorem chest_no_defense_gate_consumed :
    (∀ (h : HostRandom) (fuel : Nat) (seed : Int) (settings : GameSettings)
       (item : ChestItem),
       ChestItem.generate_common h fuel seed settings = some item →
       ∀ v : Int, (Enchant.Defense, v) ∉ itemEnchants item) ∧
    (∀ (h : HostRandom) (fuel : Nat) (seed : Int) (settings : GameSettings)
       (item : ChestItem),
       ChestItem.generate_rare h fuel seed settings = some item →
       ∀ v : Int, (Enchant.Defense, v) ∉ itemEnchants item) ∧
    (∀ (s : Nat → ℚ) (d : Nat → Int → Int) (p : Nat) (lvl speed : Int),
       10 < lvl → s p < 1/2 →
       enchant_item ⟨s, d, p⟩ lvl speed =
         (major_roll ⟨s, d, p + 4⟩ lvl speed).map
           (fun mr => (minorsAt s d p ++ [mr.1], mr.2))) := by
  refine ⟨?_, ?_, ?_⟩
  · intro h fuel seed settings item hi v
    rw [generate_common_posSpec] at hi
    rcases ha : acceptPos (h.rdrawOf seed) settings.cracked_golden_coconut 7 1 1 fuel
      with _ | q <;> rw [ha] at hi
    · simp at hi
    · simp only [Option.some_bind] at hi
      simp only [commonAtPos] at hi
      split_ifs at hi <;>
      first
      | (have he := Option.some.inj hi
         subst he
         simp [itemEnchants])
      | (obtain ⟨⟨ee, rr⟩, hm, he⟩ := Option.map_eq_some'.mp hi
         subst he
         simp only [itemEnchants]
         exact enchant_no_defense _ _ _ (by norm_num) _ _ hm v)
      | (exact absurd hi (by simp))
  · intro h fuel seed settings item hi v
    rw [generate_rare_posSpec] at hi
    rcases ha : acceptPos (h.rdrawOf seed) settings.cracked_golden_coconut 9 3 1 fuel
      with _ | q <;> rw [ha] at hi
    · simp at hi
    · simp only [Option.some_bind] at hi
      simp only [rareAtPos] at hi
      split_ifs at hi <;>
      first
      | (have he := Option.some.inj hi
         subst he
         simp [itemEnchants])
      | (obtain ⟨⟨ee, rr⟩, hm, he⟩ := Option.map_eq_some'.mp hi
         subst he
         simp only [itemEnchants]
         exact enchant_no_defense _ _ _ (by norm_num) _ _ hm v)
      | (exact absurd hi (by simp))
  · intro s d p lvl speed hlvl hg
    simp only [enchant_item, minorsAt, DotnetRng.next_f64, DotnetRng.next_range,
      Nat.add_assoc]
    rw [if_pos hg]
    rw [if_neg (show ¬ (s (p + 1) < 1/8 ∧ lvl ≤ 10) from fun hh => absurd hh.2 (by omega))]
    by_cases h2 : s (p + 2) < 1/8
    · rw [if_pos h2, if_pos h2]
      simp
    · rw [if_neg h2, if_neg h2]
      by_cases h3 : s (p + 3) < 1/8
      · rw [if_pos h3, if_pos h3]
        simp
      · rw [if_neg h3, if_neg h3]
        simp

/-- Witness for C9 at concrete inputs. -/
theorem chest_no_defense_gate_consumed_inst :
    (Enchant.Defense, (0 : Int)) ∉ itemEnchants ChestItem.CinderShards3 ∧
    enchant_item ⟨zeroQ, zeroD, 0⟩ 13 0 =
      (major_roll ⟨zeroQ, zeroD, 4⟩ 13 0).map
        (fun mr => (minorsAt zeroQ zeroD 0 ++ [mr.1], mr.2)) :=
  ⟨chest_no_defense_gate_consumed.1 host0 1 0 ⟨true⟩ ChestItem.CinderShards3 (by decide) 0,
   chest_no_defense_gate_consumed.2.2 zeroQ zeroD 0 13 0 (by norm_num)
     (by norm_num [zeroQ])⟩

/-- C8: `Goodie::to_html` returns a string for every `DragonTooth`,
`CommonChest` and `RareChest` value and fails (panics, modelled as `none`)
exactly on a `ChanceChest`, for every icon formatter. -/
theorem to_html_none_iff_chance (format_icon : String → String) (g : Goodie) :
    Goodie.to_html format_icon g = none ↔ ∃ m c r, g = Goodie.ChanceChest m c r := by
  cases g <;> simp [Goodie.to_html]

/-- C10: `Goodie::generate` never returns the `DragonTooth` variant: whatever
the seed, settings, level and luck bounds, a produced outcome is a
`CommonChest`, a `RareChest` or a `ChanceChest`. -/
theorem generate_never_dragon_tooth (h : HostRandom) (fuel : Nat) (seed : Int)
    (settings : GameSettings) (level : Int) (min_luck max_luck : ℚ) (g : Goodie)
    (hg : Goodie.generate h fuel seed settings level min_luck max_luck = some g) :
    g ≠ Goodie.DragonTooth := by
  simp only [Goodie.generate] at hg
  split_ifs at hg <;>
  first
  | (obtain ⟨c, _, he⟩ := Option.map_eq_some'.mp hg
     subst he
     simp)
  | (rcases hc : ChestItem.generate_common h fuel seed settings with _ | c <;>
     rcases hr : ChestItem.generate_rare h fuel seed settings with _ | rr <;>
     rw [hc, hr] at hg <;>
     simp at hg <;>
     (subst hg; simp))

/-- C1: the outcome combinator computes the roll as the first float draw of a
generator seeded from the seed, minus `0.5` when the level is `9` and `0.1`
otherwise, plus `1.0`; for valid luck bounds the produced outcome is a
`RareChest` iff the roll is below `min_luck`, a `CommonChest` iff the roll is
at least `max_luck`, and a `ChanceChest` carrying the roll as its threshold
iff `min_luck ≤ roll < max_luck`; the three branches are exhaustive and
mutually exclusive. -/
theorem generate_branch_totality (h : HostRandom) (fuel : Nat) (seed : Int)
    (settings : GameSettings) (level : Int) (min_luck max_luck : ℚ)
    (hlt : min_luck < max_luck) (g : Goodie)
    (hg : Goodie.generate h fuel seed settings level min_luck max_luck = some g) :
    ((∃ c, g = Goodie.RareChest c) ↔ chestRoll h seed level < min_luck) ∧
    ((∃ c, g = Goodie.CommonChest c) ↔ max_luck ≤ chestRoll h seed level) ∧
    ((∃ c rr, g = Goodie.ChanceChest (chestRoll h seed level) c rr) ↔
      (min_luck ≤ chestRoll h seed level ∧ chestRoll h seed level < max_luck)) := by
  rw [generate_eq_cases] at hg
  set R := chestRoll h seed level with hR
  split_ifs at hg with h1 h2
  · obtain ⟨x, hx, he⟩ := Option.map_eq_some'.mp hg
    subst he
    refine ⟨by simp [h1], ?_, ?_⟩
    · constructor
      · rintro ⟨c, hc⟩
        simp at hc
      · intro hmax
        linarith
    · constructor
      · rintro ⟨c, rr, hc⟩
        simp at hc
      · rintro ⟨hmin, _⟩
        linarith
  · obtain ⟨x, hx, he⟩ := Option.map_eq_some'.mp hg
    subst he
    refine ⟨?_, by simp [h2], ?_⟩
    · constructor
      · rintro ⟨c, hc⟩
        simp at hc
      · intro hmin
        exact absurd hmin h1
    · constructor
      · rintro ⟨c, rr, hc⟩
        simp at hc
      · rintro ⟨_, hmax⟩
        linarith
  · rcases hcg : ChestItem.generate_common h fuel seed settings with _ | x <;>
      rcases hrg : ChestItem.generate_rare h fuel seed settings with _ | y <;>
      rw [hcg, hrg] at hg <;> simp at hg
    subst hg
    refine ⟨?_, ?_, ?_⟩
    · constructor
      · rintro ⟨c, hc⟩
        simp at hc
      · intro hmin
        exact absurd hmin h1
    · constructor
      · rintro ⟨c, hc⟩
        simp at hc
      · intro hmax
        exact absurd hmax h2
    · exact ⟨fun _ => ⟨not_lt.mp h1, not_le.mp h2⟩, fun _ => ⟨x, y, rfl⟩⟩

/-- Witness for C1 at a concrete input. -/
theorem generate_branch_totality_inst :
    ((∃ c, Goodie.ChanceChest (9/10) ChestItem.CinderShards3 ChestItem.CinderShards10 =
        Goodie.RareChest c) ↔ chestRoll host0 0 0 < 0) ∧
    ((∃ c, Goodie.ChanceChest (9/10) ChestItem.CinderShards3 ChestItem.CinderShards10 =
        Goodie.CommonChest c) ↔ 3 ≤ chestRoll host0 0 0) ∧
    ((∃ c rr, Goodie.ChanceChest (9/10) ChestItem.CinderShards3 ChestItem.CinderShards10 =
        Goodie.ChanceChest (chestRoll host0 0 0) c rr) ↔
      (0 ≤ chestRoll host0 0 0 ∧ chestRoll host0 0 0 < 3)) :=
  generate_branch_totality host0 1 0 ⟨true⟩ 0 0 3 (by norm_num)
    (Goodie.ChanceChest (9/10) ChestItem.CinderShards3 ChestItem.CinderShards10)
    (by norm_num [Goodie.generate, ChestItem.generate_common, ChestItem.generate_rare,
      reject_loop, DotnetRng.new, DotnetRng.next, DotnetRng.next_range, DotnetRng.next_f64,
      host0])

/-- C2: every branch of `Goodie::generate` resolves its item(s) through a
fresh generator reseeded from the original seed: a returned `CommonChest`
holds exactly `generate_common(seed, settings)`, a returned `RareChest`
exactly `generate_rare(seed, settings)`, and a returned `ChanceChest` both. -/
theorem generate_reseeds_per_branch (h : HostRandom) (fuel : Nat) (seed : Int)
    (settings : GameSettings) (level : Int) (min_luck max_luck : ℚ) :
    (∀ c, Goodie.generate h fuel seed settings level min_luck max_luck =
        some (Goodie.CommonChest c) →
      ChestItem.generate_common h fuel seed settings = some c) ∧
    (∀ rr, Goodie.generate h fuel seed settings level min_luck max_luck =
        some (Goodie.RareChest rr) →
      ChestItem.generate_rare h fuel seed settings = some rr) ∧
    (∀ m c rr, Goodie.generate h fuel seed settings level min_luck max_luck =
        some (Goodie.ChanceChest m c rr) →
      ChestItem.generate_common h fuel seed settings = some c ∧
      ChestItem.generate_rare h fuel seed settings = some rr) := by
  refine ⟨?_, ?_, ?_⟩
  · intro c hg
    rw [generate_eq_cases] at hg
    split_ifs at hg <;>
    first
    | (obtain ⟨x, hx, he⟩ := Option.map_eq_some'.mp hg
       first
       | (injection he with he1
          subst he1
          exact hx)
       | simp at he)
    | (rcases hcg : ChestItem.generate_common h fuel seed settings with _ | x <;>
       rcases hrg : ChestItem.generate_rare h fuel seed settings with _ | y <;>
       rw [hcg, hrg] at hg <;> simp at hg)
  · intro rr hg
    rw [generate_eq_cases] at hg
    split_ifs at hg <;>
    first
    | (obtain ⟨x, hx, he⟩ := Option.map_eq_some'.mp hg
       first
       | (injection he with he1
          subst he1
          exact hx)
       | simp at he)
    | (rcases hcg : ChestItem.generate_common h fuel seed settings with _ | x <;>
       rcases hrg : ChestItem.generate_rare h fuel seed settings with _ | y <;>
       rw [hcg, hrg] at hg <;> simp at hg)
  · intro m c rr hg
    rw [generate_eq_cases] at hg
    split_ifs at hg <;>
    first
    | (obtain ⟨x, hx, he⟩ := Option.map_eq_some'.mp hg
       simp at he)
    | (rcases hcg : ChestItem.generate_common h fuel seed settings with _ | x <;>
       rcases hrg : ChestItem.generate_rare h fuel seed settings with _ | y <;>
       rw [hcg, hrg] at hg <;>
       simp at hg <;>
       (obtain ⟨_, h2, h3⟩ := hg
        subst h2
        subst h3
        exact ⟨rfl, rfl⟩))

/-- Witness for C2 at a concrete input. -/
theorem generate_reseeds_per_branch_inst :
    ChestItem.generate_common host0 1 0 ⟨true⟩ = some ChestItem.CinderShards3 ∧
    ChestItem.generate_rare host0 1 0 ⟨true⟩ = some ChestItem.CinderShards10 :=
  (generate_reseeds_per_branch host0 1 0 ⟨true⟩ 0 0 3).2.2 (9/10)
    ChestItem.CinderShards3 ChestItem.CinderShards10
    (by norm_num [Goodie.generate, ChestItem.generate_common, ChestItem.generate_rare,
      reject_loop, DotnetRng.new, DotnetRng.next, DotnetRng.next_range, DotnetRng.next_f64,
      host0])

/-- C3 counterexample: with all float draws `1/10`, level `1`, `min_luck = 1`
and `max_luck = 2`, the roll is exactly `1 = min_luck` and a `ChanceChest`
with threshold `1` is still produced, so the threshold does not lie strictly
above `min_luck` as the claim states. -/
theorem chance_strict_band_refuted :
    Goodie.generate hostTenth 1 0 ⟨true⟩ 1 1 2 =
      some (Goodie.ChanceChest 1 ChestItem.CinderShards3 ChestItem.CinderShards10) ∧
    ¬ ((1 : ℚ) < 1) :=
  ⟨by norm_num [Goodie.generate, ChestItem.generate_common, ChestItem.generate_rare,
      reject_loop, DotnetRng.new, DotnetRng.next, DotnetRng.next_range, DotnetRng.next_f64,
      hostTenth],
   by norm_num⟩

/-- C3 (amended): a `ChanceChest` is only ever constructed when its threshold
lies in the half-open band `min_luck ≤ threshold < max_luck` (the lower bound
can be attained); whenever the roll lies outside that band, `generate` commits
to exactly one of `CommonChest` or `RareChest`. -/
theorem chance_half_open_band (h : HostRandom) (fuel : Nat) (seed : Int)
    (settings : GameSettings) (level : Int) (min_luck max_luck : ℚ) (g : Goodie)
    (hg : Goodie.generate h fuel seed settings level min_luck max_luck = some g) :
    (∀ m c rr, g = Goodie.ChanceChest m c rr → min_luck ≤ m ∧ m < max_luck) ∧
    ((chestRoll h seed level < min_luck ∨ max_luck ≤ chestRoll h seed level) →
      ((∃ c, g = Goodie.CommonChest c) ∨ (∃ c, g = Goodie.RareChest c)) ∧
      ¬ ((∃ c, g = Goodie.CommonChest c) ∧ (∃ c, g = Goodie.RareChest c))) := by
  rw [generate_eq_cases] at hg
  set R := chestRoll h seed level with hR
  split_ifs at hg with h1 h2
  · obtain ⟨x, hx, he⟩ := Option.map_eq_some'.mp hg
    subst he
    constructor
    · intro m c rr habs
      simp at habs
    · intro _
      refine ⟨Or.inr ⟨x, rfl⟩, ?_⟩
      rintro ⟨⟨c, hc⟩, _⟩
      simp at hc
  · obtain ⟨x, hx, he⟩ := Option.map_eq_some'.mp hg
    subst he
    constructor
    · intro m c rr habs
      simp at habs
    · intro _
      refine ⟨Or.inl ⟨x, rfl⟩, ?_⟩
      rintro ⟨_, ⟨c, hc⟩⟩
      simp at hc
  · rcases hcg : ChestItem.generate_common h fuel seed settings with _ | x <;>
      rcases hrg : ChestItem.generate_rare h fuel seed settings with _ | y <;>
      rw [hcg, hrg] at hg <;> simp at hg
    subst hg
    constructor
    · intro m c rr heq
      simp at heq
      obtain ⟨hRm, _, _⟩ := heq
      rw [← hRm]
      exact ⟨not_lt.mp h1, not_le.mp h2⟩
    · intro hout
      rcases hout with hout | hout
      · exact absurd hout h1
      · exact absurd hout h2

/-- Witness for the amended C3 at a concrete input. -/
theorem chance_half_open_band_inst :
    (∀ m c rr,
      Goodie.ChanceChest (9/10) ChestItem.CinderShards3 ChestItem.CinderShards10 =
        Goodie.ChanceChest m c rr → (0 : ℚ) ≤ m ∧ m < 3) ∧
    ((chestRoll host0 0 0 < 0 ∨ 3 ≤ chestRoll host0 0 0) →
      ((∃ c, Goodie.ChanceChest (9/10) ChestItem.CinderShards3 ChestItem.CinderShards10 =
          Goodie.CommonChest c) ∨
       (∃ c, Goodie.ChanceChest (9/10) ChestItem.CinderShards3 ChestItem.CinderShards10 =
          Goodie.RareChest c)) ∧
      ¬ ((∃ c, Goodie.ChanceChest (9/10) ChestItem.CinderShards3 ChestItem.CinderShards10 =
          Goodie.CommonChest c) ∧
         (∃ c, Goodie.ChanceChest (9/10) ChestItem.CinderShards3 ChestItem.CinderShards10 =
          Goodie.RareChest c))) :=
  chance_half_open_band host0 1 0 ⟨true⟩ 0 0 3
    (Goodie.ChanceChest (9/10) ChestItem.CinderShards3 ChestItem.CinderShards10)
    (by norm_num [Goodie.generate, ChestItem.generate_common, ChestItem.generate_rare,
      reject_loop, DotnetRng.new, DotnetRng.next, DotnetRng.next_range, DotnetRng.next_f64,
      host0])

/-- C4: both tier selectors discard exactly one raw draw as the tier gate
(the rejection loop starts at position 1), draw the item index with width 7
(common) or 9 (rare), consume exactly one more draw per rejected index, and on
the weapon-family slot take exactly one width-3 draw before handing the
enchantment sub-roller the very next position. -/
theorem selector_draw_accounting (h : HostRandom) (fuel : Nat) (seed : Int)
    (settings : GameSettings) :
    ChestItem.generate_common h fuel seed settings =
      (acceptPos (h.rdrawOf seed) settings.cracked_golden_coconut 7 1 1 fuel).bind
        (commonAtPos (h.sampleOf seed) (h.rdrawOf seed)) ∧
    ChestItem.generate_rare h fuel seed settings =
      (acceptPos (h.rdrawOf seed) settings.cracked_golden_coconut 9 3 1 fuel).bind
        (rareAtPos (h.sampleOf seed) (h.rdrawOf seed)) :=
  ⟨generate_common_posSpec h fuel seed settings, generate_rare_posSpec h fuel seed settings⟩

set_option maxHeartbeats 1600000 in
/-- C5: with the toggle off, the contested items (`GoldenCoconut` in the
common tier, `GoldenCoconuts` in the rare tier) are never produced, whatever
the seed; with the toggle on, each contested item is produced for some seed
and host draw sequence. -/
theorem toggle_exclusion_contested :
    (∀ (h : HostRandom) (fuel : Nat) (seed : Int) (settings : GameSettings)
       (item : ChestItem), settings.cracked_golden_coconut = false →
       ChestItem.generate_common h fuel seed settings = some item →
       item ≠ ChestItem.GoldenCoconut) ∧
    (∀ (h : HostRandom) (fuel : Nat) (seed : Int) (settings : GameSettings)
       (item : ChestItem), settings.cracked_golden_coconut = false →
       ChestItem.generate_rare h fuel seed settings = some item →
       item ≠ ChestItem.GoldenCoconuts) ∧
    (∃ (h : HostRandom) (fuel : Nat) (seed : Int),
       ChestItem.generate_common h fuel seed ⟨true⟩ = some ChestItem.GoldenCoconut) ∧
    (∃ (h : HostRandom) (fuel : Nat) (seed : Int),
       ChestItem.generate_rare h fuel seed ⟨true⟩ = some ChestItem.GoldenCoconuts) := by
  refine ⟨?_, ?_, ⟨hostIdx1, 1, 0, by decide⟩, ⟨hostIdx3, 1, 0, by decide⟩⟩
  · intro h fuel seed settings item htog hi
    rw [generate_common_posSpec] at hi
    rcases ha : acceptPos (h.rdrawOf seed) settings.cracked_golden_coconut 7 1 1 fuel
      with _ | q <;> rw [ha] at hi
    · simp at hi
    · have hnc := acceptPos_not_contested (h.rdrawOf seed)
        settings.cracked_golden_coconut 7 1 fuel 1 q ha
      have hne : ¬ h.rdrawOf seed q 7 = 1 := fun he => hnc ⟨he, htog⟩
      simp only [Option.some_bind] at hi
      simp only [commonAtPos] at hi
      split_ifs at hi <;>
      first
      | (exact absurd (by assumption) hne)
      | (have he := Option.some.inj hi
         subst he
         simp)
      | (obtain ⟨pe, _, he⟩ := Option.map_eq_some'.mp hi
         subst he
         simp)
      | (exact absurd hi (by simp))
  · intro h fuel seed settings item htog hi
    rw [generate_rare_posSpec] at hi
    rcases ha : acceptPos (h.rdrawOf seed) settings.cracked_golden_coconut 9 3 1 fuel
      with _ | q <;> rw [ha] at hi
    · simp at hi
    · have hnc := acceptPos_not_contested (h.rdrawOf seed)
        settings.cracked_golden_coconut 9 3 fuel 1 q ha
      have hne : ¬ h.rdrawOf seed q 9 = 3 := fun he => hnc ⟨he, htog⟩
      simp only [Option.some_bind] at hi
      simp only [rareAtPos] at hi
      split_ifs at hi <;>
      first
      | (exact absurd (by assumption) hne)
      | (have he := Option.some.inj hi
         subst he
         simp)
      | (obtain ⟨pe, _, he⟩ := Option.map_eq_some'.mp hi
         subst he
         simp)
      | (exact absurd hi (by simp))

/-- Witness for C5 at a concrete input. -/
theorem toggle_exclusion_contested_inst :
    ChestItem.CinderShards3 ≠ ChestItem.GoldenCoconut ∧
    ChestItem.CinderShards10 ≠ ChestItem.GoldenCoconuts :=
  ⟨toggle_exclusion_contested.1 host0 1 0 ⟨false⟩ ChestItem.CinderShards3 rfl (by decide),
   toggle_exclusion_contested.2.1 host0 1 0 ⟨false⟩ ChestItem.CinderShards10 rfl (by decide)⟩

/-- Witness for C10 at a concrete input. -/
theorem generate_never_dragon_tooth_inst :
    Goodie.ChanceChest (9/10) ChestItem.CinderShards3 ChestItem.CinderShards10 ≠
      Goodie.DragonTooth :=
  generate_never_dragon_tooth host0 1 0 ⟨true⟩ 0 0 3 _
    (by norm_num [Goodie.generate, ChestItem.generate_common, ChestItem.generate_rare,
      reject_loop, DotnetRng.new, DotnetRng.next, DotnetRng.next_range, DotnetRng.next_f64,
      host0])

end Loot
